import Mathlib

/-!
Shallow embedding of the `kubernoisy` churn tool.

The repository ships two variants of the single Go source file:

* variant A (`main.go`): creates a headless service plus an explicit
  endpoints object, `ops` is an `int`, the ticker period is
  `1 * time.Second / time.Duration(ops)`, and every action counter is
  incremented unconditionally after the corresponding API call;
* variant B (`part_001`): creates a pod plus a headless service, `ops`
  is a `float64`, the ticker period is
  `time.Duration(1/ops) * time.Second`, and every action counter is
  incremented only in the `else` branch of the error check, i.e. only
  when the API call succeeded.

Both variants share the convergence verifier: a loop polling
`net.LookupIP` once per second until the target condition holds or the
timeout elapses, with `elapsed` updated only after each sleep.

Time is modelled in whole seconds (the poll granularity of the source);
the DNS oracle is a function from the poll index (seconds since the
loop start) to the result of `net.LookupIP`, either an error message or
a list of IP strings.
-/

/-- Result of one `net.LookupIP` call: an error message or the list of
resolved IPs (as strings, mirroring `ips[0].String()`). -/
abbrev LookupResult := Except String (List String)

/-- Embedding of Go `strings.Contains` step: does `sub` occur at the head
of `s`? -/
def matchHere : List Char → List Char → Bool
  | _, [] => true
  | [], _ :: _ => false
  | a :: s, b :: t => a == b && matchHere s t

/-- Embedding of Go `strings.Contains` on char lists: does `sub` occur
anywhere in `s`? -/
def containsAux : List Char → List Char → Bool
  | [], sub => matchHere [] sub
  | a :: s, sub => matchHere (a :: s) sub || containsAux s sub

/-- Go `strings.Contains(s, sub)`. -/
def goContains (s sub : String) : Bool :=
  containsAux s.toList sub.toList

/-- Variant A presence condition (main.go line 126):
`err == nil && len(ips) > 0 && ips[0].String() == ip` with `ip = "1.2.3.4"`. -/
def presenceOkA : LookupResult → Bool
  | Except.ok [] => false
  | Except.ok (i :: _) => i == "1.2.3.4"
  | Except.error _ => false

/-- Variant B presence condition (part_001 line 140):
`err == nil && len(ips) > 0`. -/
def presenceOkB : LookupResult → Bool
  | Except.ok ips => !ips.isEmpty
  | Except.error _ => false

/-- Absence condition (both variants):
`err != nil && strings.Contains(err.Error(), "no such host")`. -/
def absenceOk : LookupResult → Bool
  | Except.ok _ => false
  | Except.error m => goContains m "no such host"

/-- One verification loop
`for start := time.Now(); time.Since(start) < timeout; { poll; sleep 1s; elapsed = time.Since(start) }`,
with `fuel = timeout - t` remaining whole seconds, `t` the seconds since
the loop start and `elapsed` the Go `elapsed` variable (updated only
after each sleep). Returns `(verified, elapsed)`. -/
def pollGo (ok : Nat → Bool) : Nat → Nat → Nat → Bool × Nat
  | 0, _, elapsed => (false, elapsed)
  | fuel + 1, t, elapsed =>
    if ok t then (true, elapsed) else pollGo ok fuel (t + 1) (t + 1)

/-- The verification loop started at `t = 0` with `elapsed = 0`
(`var elapsed time.Duration` / `elapsed = 0`). -/
def pollLoop (ok : Nat → Bool) (timeout : Nat) : Bool × Nat :=
  pollGo ok timeout 0 0

/-- Variant A post-create verification (main.go lines 122-132). -/
def verifyPresenceA (lookup : Nat → LookupResult) (timeout : Nat) : Bool × Nat :=
  pollLoop (fun t => presenceOkA (lookup t)) timeout

/-- Variant B post-create verification (part_001 lines 135-146). -/
def verifyPresenceB (lookup : Nat → LookupResult) (timeout : Nat) : Bool × Nat :=
  pollLoop (fun t => presenceOkB (lookup t)) timeout

/-- Post-delete verification, common to both variants. -/
def verifyAbsence (lookup : Nat → LookupResult) (timeout : Nat) : Bool × Nat :=
  pollLoop (fun t => absenceOk (lookup t)) timeout

/-- The `debugf` helper (main.go lines 171-176): logs the message only
when the verbose flag is set. -/
def debugf (verbose : Bool) (msg : String) : List String :=
  if !verbose then [] else [msg]

/-- Outcomes of the external API calls and the DNS oracle for one cycle of
variant A (main.go): `none` means the call succeeded, `some e` that it
returned error `e`. -/
structure CycleEnvA where
  rando : String
  nspace : String
  svcCreateErr : Option String
  epsCreateErr : Option String
  svcDeleteErr : Option String
  lookupAdd : Nat → LookupResult
  lookupDel : Nat → LookupResult
  timeout : Nat
  verbose : Bool

/-- Metric increments produced by one variant A cycle: the three
`OperationCount` counters touched, the two `ValidationFailCount`
counters, and the values observed into `ValidationDuration`. -/
structure CountersA where
  svcAdd : Nat
  epsAdd : Nat
  svcDel : Nat
  valFailAdd : Nat
  valFailDel : Nat
  obsAdd : List Nat
  obsDel : List Nat
deriving DecidableEq

/-- One churn cycle of variant A (main.go lines 87-163): create service,
create endpoints, presence verification, delete service, absence
verification. Returns the metric increments and the log lines emitted. -/
def cycleA (env : CycleEnvA) : CountersA × List String :=
  let svcCreateLogs := match env.svcCreateErr with
    | some e => ["could not create service " ++ env.rando ++ "." ++ env.nspace ++ ": " ++ e]
    | none => []
  let epsCreateLogs := match env.epsCreateErr with
    | some e => debugf env.verbose ("could not create endpoints " ++ env.rando ++ "." ++ env.nspace ++ ": " ++ e)
    | none => []
  let addRes := pollLoop (fun t => presenceOkA (env.lookupAdd t)) env.timeout
  let svcDeleteLogs := match env.svcDeleteErr with
    | some e => debugf env.verbose ("could not delete service " ++ env.rando ++ "." ++ env.nspace ++ ": " ++ e)
    | none => []
  let delRes := pollLoop (fun t => absenceOk (env.lookupDel t)) env.timeout
  ({ svcAdd := 1
   , epsAdd := 1
   , svcDel := 1
   , valFailAdd := if !addRes.1 then 1 else 0
   , valFailDel := if !delRes.1 then 1 else 0
   , obsAdd := if !addRes.1 then [] else [addRes.2]
   , obsDel := if !delRes.1 then [] else [delRes.2]
   }, svcCreateLogs ++ epsCreateLogs ++ svcDeleteLogs)

/-- Outcomes of the external API calls and the DNS oracle for one cycle of
variant B (part_001). -/
structure CycleEnvB where
  rando : String
  nspace : String
  podCreateErr : Option String
  svcCreateErr : Option String
  podDeleteErr : Option String
  svcDeleteErr : Option String
  lookupAdd : Nat → LookupResult
  lookupDel : Nat → LookupResult
  timeout : Nat
  verbose : Bool

/-- Metric increments produced by one variant B cycle. -/
structure CountersB where
  podAdd : Nat
  svcAdd : Nat
  podDel : Nat
  svcDel : Nat
  valFailAdd : Nat
  valFailDel : Nat
  obsAdd : List Nat
  obsDel : List Nat
deriving DecidableEq

/-- One churn cycle of variant B (part_001 lines 88-186): create pod,
create service, presence verification, delete pod, delete service,
absence verification. Counters are incremented only in the success
branch of each call. -/
def cycleB (env : CycleEnvB) : CountersB × List String :=
  let podCreateLogs := match env.podCreateErr with
    | some e => ["could not create pod " ++ env.rando ++ "." ++ env.nspace ++ ": " ++ e]
    | none => []
  let podAdd := match env.podCreateErr with
    | some _ => 0
    | none => 1
  let svcCreateLogs := match env.svcCreateErr with
    | some e => ["could not create service " ++ env.rando ++ "." ++ env.nspace ++ ": " ++ e]
    | none => []
  let svcAdd := match env.svcCreateErr with
    | some _ => 0
    | none => 1
  let addRes := pollLoop (fun t => presenceOkB (env.lookupAdd t)) env.timeout
  let podDeleteLogs := match env.podDeleteErr with
    | some e => debugf env.verbose ("could not delete pod pod." ++ env.rando ++ "." ++ env.nspace ++ ": " ++ e)
    | none => []
  let podDel := match env.podDeleteErr with
    | some _ => 0
    | none => 1
  let svcDeleteLogs := match env.svcDeleteErr with
    | some e => debugf env.verbose ("could not delete service " ++ env.rando ++ "." ++ env.nspace ++ ": " ++ e)
    | none => []
  let svcDel := match env.svcDeleteErr with
    | some _ => 0
    | none => 1
  let delRes := pollLoop (fun t => absenceOk (env.lookupDel t)) env.timeout
  ({ podAdd := podAdd
   , svcAdd := svcAdd
   , podDel := podDel
   , svcDel := svcDel
   , valFailAdd := if !addRes.1 then 1 else 0
   , valFailDel := if !delRes.1 then 1 else 0
   , obsAdd := if !addRes.1 then [] else [addRes.2]
   , obsDel := if !delRes.1 then [] else [delRes.2]
   }, podCreateLogs ++ svcCreateLogs ++ podDeleteLogs ++ svcDeleteLogs)

/-- Object metadata as built by the factories: name, namespace, labels. -/
structure ObjectMetaSpec where
  name : String
  nspace : String
  labels : List (String × String)
deriving DecidableEq

/-- A named port (used for service ports, endpoint ports and container
ports alike). -/
structure PortSpec where
  name : String
  port : Int
deriving DecidableEq

/-- A headless service spec as built by either variant. -/
structure ServiceResource where
  meta : ObjectMetaSpec
  ports : List PortSpec
  clusterIP : String
  svcType : String
  selector : List (String × String)
deriving DecidableEq

/-- An endpoints spec (variant A only): one subset with one address
`(ip, hostname)` and one port. -/
structure EndpointsResource where
  meta : ObjectMetaSpec
  addresses : List (String × String)
  eports : List PortSpec
deriving DecidableEq

/-- A pod spec (variant B only). -/
structure PodResource where
  meta : ObjectMetaSpec
  hostname : String
  containerName : String
  image : String
  containerPorts : List PortSpec
deriving DecidableEq

/-- Variant A service factory (main.go lines 92-99): headless ClusterIP
service named `rando` with one http/80 port. `v1.ClusterIPNone` is the
string "None". -/
def mkServiceA (rando nspace : String) : ServiceResource :=
  { meta := { name := rando, nspace := nspace, labels := [] }
  , ports := [{ name := "http", port := 80 }]
  , clusterIP := "None"
  , svcType := "ClusterIP"
  , selector := [] }

/-- Variant A endpoints factory (main.go lines 107-114): one subset with
address 1.2.3.4 / hostname "test" and one http/80 port. -/
def mkEndpointsA (rando nspace : String) : EndpointsResource :=
  { meta := { name := rando, nspace := nspace, labels := [] }
  , addresses := [("1.2.3.4", "test")]
  , eports := [{ name := "http", port := 80 }] }

/-- Variant B pod factory (part_001 lines 92-106). -/
def mkPodB (rando nspace : String) : PodResource :=
  { meta := { name := rando, nspace := nspace
            , labels := [("app", rando), ("kubernoisy", "noise")] }
  , hostname := "pod"
  , containerName := rando
  , image := "gcr.io/google_containers/pause:3.2"
  , containerPorts := [{ name := "kubernoisy", port := 1234 }] }

/-- Variant B service factory (part_001 lines 115-127). -/
def mkServiceB (rando nspace : String) : ServiceResource :=
  { meta := { name := rando, nspace := nspace, labels := [("kubernoisy", "noise")] }
  , ports := [{ name := "kubernoisy", port := 1234 }]
  , clusterIP := "None"
  , svcType := "ClusterIP"
  , selector := [("app", rando)] }

/-- The alphabet `letterBytes` of the name generator. -/
def letterBytes : String := "0123456789abcdefghijklmnopqrstuvwxyz"

/-- `RandStringBytes(n)` (both variants, lines 192-198 of main.go): `n`
draws of `rand.Intn(len(letterBytes))`, modelled as a stream
`rng : Nat → Fin 36` of the successive values returned by `rand.Intn`,
each indexing into `letterBytes`. -/
def RandStringBytes (n : Nat) (rng : Nat → Fin 36) : List Char :=
  (List.range n).map (fun i => letterBytes.toList.get (Fin.cast (by decide) (rng i)))

/-- The cycle identity `rando := "kubernoisy-" + RandStringBytes(18)`
(main.go line 89). -/
def cycleIdentity (rng : Nat → Fin 36) : List Char :=
  "kubernoisy-".toList ++ RandStringBytes 18 rng

/-- The observable startup steps of `main`, in source order. -/
inductive StartupEvent where
  | fatalExit
  | signalNotify
  | apiConn
  | metricsServer
  | tickerStart
  | enterLoop
deriving DecidableEq

/-- Startup sequence of variant A `main` (main.go lines 59-84): after
`flag.Parse`, `ops <= 0` is fatal; then signals are registered, the API
connection is made (fatal on error), the metrics server is started, the
ticker is created and the dispatch loop is entered. -/
def startupTraceA (ops : Int) (apiConnOk : Bool) : List StartupEvent :=
  if ops ≤ 0 then [StartupEvent.fatalExit]
  else [StartupEvent.signalNotify, StartupEvent.apiConn] ++
    (if apiConnOk then
       [StartupEvent.metricsServer, StartupEvent.tickerStart, StartupEvent.enterLoop]
     else [StartupEvent.fatalExit])

/-- Startup sequence of variant B `main` (part_001 lines 59-84), whose
`ops` flag is a `float64`, modelled as a rational. -/
def startupTraceB (ops : ℚ) (apiConnOk : Bool) : List StartupEvent :=
  if ops ≤ 0 then [StartupEvent.fatalExit]
  else [StartupEvent.signalNotify, StartupEvent.apiConn] ++
    (if apiConnOk then
       [StartupEvent.metricsServer, StartupEvent.tickerStart, StartupEvent.enterLoop]
     else [StartupEvent.fatalExit])

/-- Variant A ticker period in nanoseconds (main.go line 80):
`1 * time.Second / time.Duration(ops)`, Go integer division of
1000000000 by `ops`. -/
def tickerPeriodA (ops : Int) : Int := 1000000000 / ops

/-- Variant B ticker period in nanoseconds (part_001 line 80):
`time.Duration(1/ops) * time.Second`. The float `1/ops` is converted to
an integer Duration first (truncation toward zero, i.e. floor for
positive values) and only then multiplied by `time.Second`. -/
def tickerPeriodB (ops : ℚ) : Int := ⌊1 / ops⌋ * 1000000000

/-- `time.NewTicker` panics on a non-positive duration; otherwise the
ticker fires with the given period. -/
def newTicker (d : Int) : Option Int :=
  if d ≤ 0 then none else some d

/-- Events seen by the dispatch loop (main.go lines 84-168). -/
inductive SchedEvent where
  | tick
  | sigEvent
deriving DecidableEq

/-- One iteration of the dispatch loop: a tick spawns exactly one new
cycle (`go func() {...}()`), a termination signal exits the process. The
state is the number of cycles spawned so far; `none` models `os.Exit`. -/
def schedulerStep : SchedEvent → Nat → Option Nat
  | SchedEvent.tick, n => some (n + 1)
  | SchedEvent.sigEvent, _ => none

/-- Variant A cycle outcomes where only the service delete fails;
short timeout, converging oracles. -/
def envC2A : CycleEnvA :=
  { rando := "kubernoisy-aaaaaaaaaaaaaaaaaa"
  , nspace := "load-test"
  , svcCreateErr := none
  , epsCreateErr := none
  , svcDeleteErr := some "connection refused"
  , lookupAdd := fun _ => Except.ok ["1.2.3.4"]
  , lookupDel := fun _ => Except.error "no such host"
  , timeout := 1
  , verbose := true }

/-- Variant B cycle outcomes where only the service create fails. -/
def envC2B : CycleEnvB :=
  { rando := "kubernoisy-aaaaaaaaaaaaaaaaaa"
  , nspace := "load-test"
  , podCreateErr := none
  , svcCreateErr := some "connection refused"
  , podDeleteErr := none
  , svcDeleteErr := none
  , lookupAdd := fun _ => Except.ok ["10.1.2.3"]
  , lookupDel := fun _ => Except.error "no such host"
  , timeout := 1
  , verbose := true }

/-- Variant B cycle outcomes where only the pod create fails. -/
def envC3 : CycleEnvB :=
  { rando := "kubernoisy-dddddddddddddddddd"
  , nspace := "load-test"
  , podCreateErr := some "pods is forbidden"
  , svcCreateErr := none
  , podDeleteErr := none
  , svcDeleteErr := none
  , lookupAdd := fun _ => Except.ok ["10.1.2.3"]
  , lookupDel := fun _ => Except.error "no such host"
  , timeout := 1
  , verbose := true }

/-- Variant A cycle outcomes with verbose off and a failing service
create. -/
def envC7 : CycleEnvA :=
  { rando := "kubernoisy-bbbbbbbbbbbbbbbbbb"
  , nspace := "load-test"
  , svcCreateErr := some "already exists"
  , epsCreateErr := none
  , svcDeleteErr := none
  , lookupAdd := fun _ => Except.ok ["1.2.3.4"]
  , lookupDel := fun _ => Except.error "no such host"
  , timeout := 1
  , verbose := false }

/-- Variant B cycle outcomes with verbose off and all calls succeeding. -/
def envC7B : CycleEnvB :=
  { rando := "kubernoisy-bbbbbbbbbbbbbbbbbb"
  , nspace := "load-test"
  , podCreateErr := none
  , svcCreateErr := none
  , podDeleteErr := none
  , svcDeleteErr := none
  , lookupAdd := fun _ => Except.ok ["10.1.2.3"]
  , lookupDel := fun _ => Except.error "no such host"
  , timeout := 1
  , verbose := false }

/-- Variant A cycle outcomes whose presence oracle resolves on the very
first poll. -/
def envC10 : CycleEnvA :=
  { rando := "kubernoisy-cccccccccccccccccc"
  , nspace := "load-test"
  , svcCreateErr := none
  , epsCreateErr := none
  , svcDeleteErr := none
  , lookupAdd := fun _ => Except.ok ["1.2.3.4"]
  , lookupDel := fun _ => Except.error "no such host"
  , timeout := 3
  , verbose := false }

/-- Oracle that resolves the expected address exactly at the third poll
(elapsed 2 seconds). -/
def lkC5hit : Nat → LookupResult :=
  fun t => if t = 2 then Except.ok ["1.2.3.4"] else Except.error "server misbehaving"

/-- Oracle that never resolves. -/
def lkC5miss : Nat → LookupResult :=
  fun _ => Except.error "server misbehaving"

/-- Oracle that always fails with a transient (non-"no such host")
error. -/
def lkC6 : Nat → LookupResult :=
  fun _ => Except.error "read udp 10.0.0.2:53: i-o timeout"

/-- A concrete stream of `rand.Intn(36)` draws. -/
def rngC9 : Nat → Fin 36 :=
  fun i => ⟨i % 36, Nat.mod_lt i (by decide)⟩

/-- If the poll condition never holds, the loop runs out its remaining
fuel and reports the elapsed value set by the final sleep. -/
theorem pollGo_const_false (ok : Nat → Bool) (h : ∀ j, ok j = false) :
    ∀ fuel t, pollGo ok fuel t t = (false, t + fuel) := by
  intro fuel
  induction fuel with
  | zero => intro t; simp [pollGo]
  | succ n ih =>
    intro t
    have hrec := ih (t + 1)
    simp [pollGo, h t, hrec]
    omega

/-- If the poll condition first holds at poll `k`, the loop stops there
and returns the elapsed value that the sleeps have set so far, namely
`k`. -/
theorem pollGo_first_true (ok : Nat → Bool) (k : Nat) (hk : ok k = true)
    (hmin : ∀ j, j < k → ok j = false) :
    ∀ fuel t, t ≤ k → k < t + fuel → pollGo ok fuel t t = (true, k) := by
  intro fuel
  induction fuel with
  | zero => intro t h1 h2; omega
  | succ n ih =>
    intro t h1 h2
    by_cases ht : t = k
    · subst ht; simp [pollGo, hk]
    · have hlt : t < k := lt_of_le_of_ne h1 ht
      have hf : ok t = false := hmin t hlt
      simp [pollGo, hf]
      exact ih (t + 1) (by omega) (by omega)

/-- A verification loop whose condition never holds times out with
`elapsed = timeout`. -/
theorem pollLoop_never (ok : Nat → Bool) (timeout : Nat)
    (h : ∀ j, ok j = false) : pollLoop ok timeout = (false, timeout) := by
  have := pollGo_const_false ok h timeout 0
  simpa [pollLoop] using this

/-- A verification loop whose condition first holds at poll `k < timeout`
converges with `elapsed = k`. -/
theorem pollLoop_firstHit (ok : Nat → Bool) (k timeout : Nat)
    (hk : ok k = true) (hmin : ∀ j, j < k → ok j = false)
    (hlt : k < timeout) : pollLoop ok timeout = (true, k) := by
  have := pollGo_first_true ok k hk hmin timeout 0 (Nat.zero_le k) (by omega)
  simpa [pollLoop] using this

/-- A verification loop whose condition holds on the very first poll
converges with `elapsed = 0`. -/
theorem pollLoop_zero (ok : Nat → Bool) (timeout : Nat)
    (hT : 0 < timeout) (h0 : ok 0 = true) : pollLoop ok timeout = (true, 0) :=
  pollLoop_firstHit ok 0 timeout h0 (fun j hj => absurd hj (Nat.not_lt_zero j)) hT

/-- Claim C1: the tick period as a function of `ops`. In variant A the
duration passed to the ticker is `1000000000 / ops` nanoseconds, so
`ops = 2` gives 0.5 s and `ops = 3` gives 333333333 ns, one cycle being
spawned per tick. In variant B, however, `time.Duration(1/ops)` truncates
the float before the multiplication by `time.Second`, so `ops = 2` yields
a 0-nanosecond period and `time.NewTicker` panics instead of firing every
0.5 s. -/
theorem scheduler_tick_period :
    tickerPeriodA 1 = 1000000000 ∧
    tickerPeriodA 2 = 500000000 ∧
    tickerPeriodA 3 = 333333333 ∧
    newTicker (tickerPeriodA 2) = some 500000000 ∧
    tickerPeriodB 1 = 1000000000 ∧
    tickerPeriodB 2 = 0 ∧
    newTicker (tickerPeriodB 2) = none ∧
    (∀ n : Nat, schedulerStep SchedEvent.tick n = some (n + 1)) := by
  refine ⟨by decide, by decide, by decide, by decide, ?_, ?_, ?_, fun n => rfl⟩
  · show (⌊(1 : ℚ) / 1⌋ * 1000000000 : Int) = 1000000000
    norm_num
  · show (⌊(1 : ℚ) / 2⌋ * 1000000000 : Int) = 0
    norm_num
  · show newTicker (⌊(1 : ℚ) / 2⌋ * 1000000000) = none
    norm_num [newTicker]

/-- Claim C4: with `ops ≤ 0` the startup of either variant is a fatal
exit, with no metrics server, no ticker and no dispatch loop in the
trace; with `ops > 0` the check passes and startup proceeds to the
signal registration. -/
theorem startup_ops_check (ops : Int) (opsq : ℚ) (conn : Bool) :
    (ops ≤ 0 → startupTraceA ops conn = [StartupEvent.fatalExit] ∧
       StartupEvent.metricsServer ∉ startupTraceA ops conn ∧
       StartupEvent.enterLoop ∉ startupTraceA ops conn ∧
       StartupEvent.tickerStart ∉ startupTraceA ops conn) ∧
    (0 < ops → (startupTraceA ops conn).head? = some StartupEvent.signalNotify) ∧
    (opsq ≤ 0 → startupTraceB opsq conn = [StartupEvent.fatalExit] ∧
       StartupEvent.metricsServer ∉ startupTraceB opsq conn ∧
       StartupEvent.enterLoop ∉ startupTraceB opsq conn ∧
       StartupEvent.tickerStart ∉ startupTraceB opsq conn) ∧
    (0 < opsq → (startupTraceB opsq conn).head? = some StartupEvent.signalNotify) := by
  refine ⟨?_, ?_, ?_, ?_⟩
  · intro h
    rw [startupTraceA, if_pos h]
    exact ⟨rfl, by decide, by decide, by decide⟩
  · intro h
    rw [startupTraceA, if_neg (by omega : ¬ops ≤ 0)]
    rfl
  · intro h
    rw [startupTraceB, if_pos h]
    exact ⟨rfl, by decide, by decide, by decide⟩
  · intro h
    rw [startupTraceB, if_neg (not_le.mpr h)]
    rfl

/-- Witness for claim C4 at `ops = 0` (fatal) and `ops = 1` resp.
`ops = 2` (startup proceeds). -/
theorem startup_ops_check_witness :
    startupTraceA 0 true = [StartupEvent.fatalExit] ∧
    (startupTraceA 1 true).head? = some StartupEvent.signalNotify ∧
    startupTraceB 0 true = [StartupEvent.fatalExit] ∧
    (startupTraceB 2 true).head? = some StartupEvent.signalNotify :=
  ⟨((startup_ops_check 0 0 true).1 (by omega)).1,
   (startup_ops_check 1 1 true).2.1 (by omega),
   ((startup_ops_check 0 0 true).2.2.1 (le_refl 0)).1,
   (startup_ops_check 1 2 true).2.2.2 (by norm_num)⟩

/-- Claim C8: the resource factories of both variants are pure: for
equal identity and namespace arguments the constructed spec pairs are
structurally identical, and construction is total (the factories return
the specs themselves, not an error). -/
theorem resource_factory_deterministic (i₁ i₂ n₁ n₂ : String)
    (hi : i₁ = i₂) (hn : n₁ = n₂) :
    (mkServiceA i₁ n₁, mkEndpointsA i₁ n₁) = (mkServiceA i₂ n₂, mkEndpointsA i₂ n₂) ∧
    (mkPodB i₁ n₁, mkServiceB i₁ n₁) = (mkPodB i₂ n₂, mkServiceB i₂ n₂) := by
  subst hi
  subst hn
  exact ⟨rfl, rfl⟩

/-- Witness for claim C8 at a concrete identity and namespace. -/
theorem resource_factory_deterministic_witness :
    (mkServiceA "kubernoisy-0a1b2c3d4e5f6g7h8i" "load-test",
       mkEndpointsA "kubernoisy-0a1b2c3d4e5f6g7h8i" "load-test") =
      (mkServiceA "kubernoisy-0a1b2c3d4e5f6g7h8i" "load-test",
       mkEndpointsA "kubernoisy-0a1b2c3d4e5f6g7h8i" "load-test") ∧
    (mkPodB "kubernoisy-0a1b2c3d4e5f6g7h8i" "load-test",
       mkServiceB "kubernoisy-0a1b2c3d4e5f6g7h8i" "load-test") =
      (mkPodB "kubernoisy-0a1b2c3d4e5f6g7h8i" "load-test",
       mkServiceB "kubernoisy-0a1b2c3d4e5f6g7h8i" "load-test") :=
  resource_factory_deterministic _ _ _ _ rfl rfl

/-- Claim C2 (counterexample): in variant A the service delete counter is
incremented even though the delete call failed, and in variant B the
service add counter is not incremented when the service create call
failed — so the claimed split (creates unconditional, deletes
success-only) holds in neither variant. -/
theorem action_counter_asymmetry_counterexample :
    envC2A.svcDeleteErr = some "connection refused" ∧
    (cycleA envC2A).1.svcDel = 1 ∧
    envC2B.svcCreateErr = some "connection refused" ∧
    (cycleB envC2B).1.svcAdd = 0 :=
  ⟨rfl, rfl, rfl, rfl⟩

/-- Claim C2 (amended): in variant A every action counter the cycle
touches (service add, endpoints add, service delete) is incremented
unconditionally, even on API error; in variant B every action counter
(pod/service, add/delete) is incremented exactly when the corresponding
call succeeded. -/
theorem action_counters_policy (a : CycleEnvA) (b : CycleEnvB) :
    (cycleA a).1.svcAdd = 1 ∧
    (cycleA a).1.epsAdd = 1 ∧
    (cycleA a).1.svcDel = 1 ∧
    (cycleB b).1.podAdd = (if b.podCreateErr.isNone then 1 else 0) ∧
    (cycleB b).1.svcAdd = (if b.svcCreateErr.isNone then 1 else 0) ∧
    (cycleB b).1.podDel = (if b.podDeleteErr.isNone then 1 else 0) ∧
    (cycleB b).1.svcDel = (if b.svcDeleteErr.isNone then 1 else 0) := by
  refine ⟨rfl, rfl, rfl, ?_, ?_, ?_, ?_⟩
  · cases h : b.podCreateErr <;> simp [cycleB, h]
  · cases h : b.svcCreateErr <;> simp [cycleB, h]
  · cases h : b.podDeleteErr <;> simp [cycleB, h]
  · cases h : b.svcDeleteErr <;> simp [cycleB, h]

/-- Claim C3 (counterexample): in variant B a cycle whose pod create call
fails increments no pod add counter at all, so a completed cycle does not
increment exactly one add counter per attempted kind regardless of API
outcome. -/
theorem counter_per_kind_counterexample :
    envC3.podCreateErr = some "pods is forbidden" ∧
    (cycleB envC3).1.podAdd = 0 :=
  ⟨rfl, rfl⟩

/-- Claim C3 (amended): in variant A every completed cycle increments
exactly one add counter for each of service and endpoints and exactly one
delete counter for service, regardless of API success or failure; in
variant B the number of add (resp. delete) increments equals the number
of successful create (resp. delete) calls. -/
theorem cycle_counter_totals (a : CycleEnvA) (b : CycleEnvB) :
    (cycleA a).1.svcAdd + (cycleA a).1.epsAdd = 2 ∧
    (cycleA a).1.svcDel = 1 ∧
    (cycleB b).1.podAdd + (cycleB b).1.svcAdd =
      (if b.podCreateErr.isNone then 1 else 0) +
        (if b.svcCreateErr.isNone then 1 else 0) ∧
    (cycleB b).1.podDel + (cycleB b).1.svcDel =
      (if b.podDeleteErr.isNone then 1 else 0) +
        (if b.svcDeleteErr.isNone then 1 else 0) := by
  refine ⟨rfl, rfl, ?_, ?_⟩
  · cases h1 : b.podCreateErr <;> cases h2 : b.svcCreateErr <;> simp [cycleB, h1, h2]
  · cases h1 : b.podDeleteErr <;> cases h2 : b.svcDeleteErr <;> simp [cycleB, h1, h2]

/-- Claim C7 (counterexample): with the verbose flag off, a failed
service create still produces a log line — `log.Printf`, not `debugf`,
reports it. -/
theorem api_failure_logging_counterexample :
    envC7.verbose = false ∧
    envC7.svcCreateErr = some "already exists" ∧
    (cycleA envC7).2 =
      ["could not create service kubernoisy-bbbbbbbbbbbbbbbbbb.load-test: already exists"] := by
  refine ⟨rfl, rfl, ?_⟩
  decide

/-- Claim C7 (amended): with verbose off, the only log lines a variant A
cycle can emit are the unconditional service-create failure messages
(endpoints-create and delete failures are logged through `debugf` and
stay silent), and likewise in variant B only the pod-create and
service-create failures are logged; in either variant a failed call
aborts nothing — the delete is still counted and the post-delete
verification still records exactly one outcome — and no call is
retried. -/
theorem cycle_logging_policy (a : CycleEnvA) (b : CycleEnvB)
    (ha : a.verbose = false) (hb : b.verbose = false) :
    (cycleA a).2 = (match a.svcCreateErr with
      | some e => ["could not create service " ++ a.rando ++ "." ++ a.nspace ++ ": " ++ e]
      | none => []) ∧
    (cycleA a).1.svcDel = 1 ∧
    (cycleA a).1.valFailDel + (cycleA a).1.obsDel.length = 1 ∧
    (cycleB b).2 = ((match b.podCreateErr with
      | some e => ["could not create pod " ++ b.rando ++ "." ++ b.nspace ++ ": " ++ e]
      | none => []) ++
     (match b.svcCreateErr with
      | some e => ["could not create service " ++ b.rando ++ "." ++ b.nspace ++ ": " ++ e]
      | none => [])) := by
  refine ⟨?_, rfl, ?_, ?_⟩
  · cases h0 : a.svcCreateErr <;> cases h1 : a.epsCreateErr <;> cases h2 : a.svcDeleteErr <;>
      simp [cycleA, debugf, ha, h0, h1, h2]
  · show (if !(pollLoop (fun t => absenceOk (a.lookupDel t)) a.timeout).1 then 1 else 0) +
      (if !(pollLoop (fun t => absenceOk (a.lookupDel t)) a.timeout).1 then ([] : List Nat)
       else [(pollLoop (fun t => absenceOk (a.lookupDel t)) a.timeout).2]).length = 1
    cases hdel : (pollLoop (fun t => absenceOk (a.lookupDel t)) a.timeout).1 <;> simp [hdel]
  · cases h0 : b.podCreateErr <;> cases h1 : b.svcCreateErr <;>
      cases h2 : b.podDeleteErr <;> cases h3 : b.svcDeleteErr <;>
      simp [cycleB, debugf, hb, h0, h1, h2, h3]

/-- Witness for claim C7 (amended) at concrete cycle outcomes: the
failed service create of `envC7` is the only log line despite
`verbose = false`, its delete counter is still 1, and the all-success
variant B cycle `envC7B` logs nothing. -/
theorem cycle_logging_policy_witness :
    (cycleA envC7).1.svcDel = 1 ∧ (cycleB envC7B).2 = [] :=
  ⟨(cycle_logging_policy envC7 envC7B rfl rfl).2.1,
   (cycle_logging_policy envC7 envC7B rfl rfl).2.2.2⟩

/-- Claim C5: presence verification. If the oracle first satisfies the
presence condition at poll `k < timeout`, the verifier of either variant
converges with elapsed exactly `k` seconds; if it never satisfies it,
the verifier reports failure after exactly `timeout` seconds. -/
theorem verify_presence_spec (lookup : Nat → LookupResult) (timeout k : Nat) :
    (k < timeout → presenceOkA (lookup k) = true →
      (∀ j, j < k → presenceOkA (lookup j) = false) →
      verifyPresenceA lookup timeout = (true, k)) ∧
    ((∀ j, presenceOkA (lookup j) = false) →
      verifyPresenceA lookup timeout = (false, timeout)) ∧
    (k < timeout → presenceOkB (lookup k) = true →
      (∀ j, j < k → presenceOkB (lookup j) = false) →
      verifyPresenceB lookup timeout = (true, k)) ∧
    ((∀ j, presenceOkB (lookup j) = false) →
      verifyPresenceB lookup timeout = (false, timeout)) := by
  refine ⟨?_, ?_, ?_, ?_⟩
  · intro h1 h2 h3
    exact pollLoop_firstHit (fun t => presenceOkA (lookup t)) k timeout h2 h3 h1
  · intro h
    exact pollLoop_never (fun t => presenceOkA (lookup t)) timeout h
  · intro h1 h2 h3
    exact pollLoop_firstHit (fun t => presenceOkB (lookup t)) k timeout h2 h3 h1
  · intro h
    exact pollLoop_never (fun t => presenceOkB (lookup t)) timeout h

/-- Witness for claim C5: an oracle resolving at the third poll converges
with elapsed 2 s under a 5 s timeout, and a never-resolving oracle fails
after the full 3 s timeout, in both variants. -/
theorem verify_presence_spec_witness :
    verifyPresenceA lkC5hit 5 = (true, 2) ∧
    verifyPresenceA lkC5miss 3 = (false, 3) ∧
    verifyPresenceB lkC5hit 5 = (true, 2) ∧
    verifyPresenceB lkC5miss 3 = (false, 3) :=
  ⟨(verify_presence_spec lkC5hit 5 2).1 (by decide) (by decide) (by decide),
   (verify_presence_spec lkC5miss 3 0).2.1 (fun j => rfl),
   (verify_presence_spec lkC5hit 5 2).2.2.1 (by decide) (by decide) (by decide),
   (verify_presence_spec lkC5miss 3 0).2.2.2 (fun j => rfl)⟩

/-- Claim C6: in absence mode, a successful resolution and an error whose
message does not contain "no such host" are both treated as not yet
converged, and an oracle producing only such results keeps being polled
until the verifier times out (no abort). -/
theorem absence_transient_errors (m : String) (ips : List String)
    (lookup : Nat → LookupResult) (timeout : Nat) :
    (goContains m "no such host" = false → absenceOk (Except.error m) = false) ∧
    absenceOk (Except.ok ips) = false ∧
    ((∀ j, absenceOk (lookup j) = false) →
      verifyAbsence lookup timeout = (false, timeout)) := by
  refine ⟨?_, rfl, ?_⟩
  · intro h
    simpa [absenceOk] using h
  · intro h
    exact pollLoop_never (fun t => absenceOk (lookup t)) timeout h

/-- Witness for claim C6: a transient resolver error and a successful
resolution are not convergence, and an always-transient oracle runs to
the 2 s timeout. -/
theorem absence_transient_errors_witness :
    absenceOk (Except.error "read udp 10.0.0.2:53: i-o timeout") = false ∧
    absenceOk (Except.ok ["1.2.3.4"]) = false ∧
    verifyAbsence lkC6 2 = (false, 2) :=
  ⟨(absence_transient_errors "read udp 10.0.0.2:53: i-o timeout" [] lkC6 2).1 (by decide),
   (absence_transient_errors "x" ["1.2.3.4"] lkC6 2).2.1,
   (absence_transient_errors "x" [] lkC6 2).2.2
     (fun j => (by decide : absenceOk (Except.error "read udp 10.0.0.2:53: i-o timeout") = false))⟩

/-- Claim C9: `RandStringBytes n` is a string of exactly `n` characters,
each drawn from the 36-character alphabet `letterBytes`, and the cycle
identity "kubernoisy-" + RandStringBytes 18 has the fixed total length
29 with the fixed 11-character head. -/
theorem rand_string_identity_shape (n : Nat) (rng : Nat → Fin 36) (c : Char) :
    (RandStringBytes n rng).length = n ∧
    (c ∈ RandStringBytes n rng → c ∈ letterBytes.toList) ∧
    letterBytes.toList.length = 36 ∧
    (cycleIdentity rng).length = 29 ∧
    (cycleIdentity rng).take 11 = "kubernoisy-".toList ∧
    ((cycleIdentity rng).drop 11).length = 18 := by
  have hrsb : ∀ m : Nat, (RandStringBytes m rng).length = m := by
    intro m
    simp [RandStringBytes]
  have h11 : ("kubernoisy-".toList).length = 11 := by decide
  refine ⟨hrsb n, ?_, by decide, ?_, ?_, ?_⟩
  · intro hc
    simp only [RandStringBytes, List.mem_map, List.mem_range] at hc
    obtain ⟨i, _, rfl⟩ := hc
    exact List.get_mem _ _ _
  · show ("kubernoisy-".toList ++ RandStringBytes 18 rng).length = 29
    rw [List.length_append, hrsb 18, h11]
  · show ("kubernoisy-".toList ++ RandStringBytes 18 rng).take 11 = "kubernoisy-".toList
    rw [← h11]
    exact List.take_left _ _
  · show (("kubernoisy-".toList ++ RandStringBytes 18 rng).drop 11).length = 18
    rw [← h11, List.drop_left, hrsb 18]

/-- Witness for claim C9 at a concrete draw stream: length 18 body,
first alphabet character membership, and total identity length 29. -/
theorem rand_string_identity_shape_witness :
    (RandStringBytes 18 rngC9).length = 18 ∧
    '0' ∈ letterBytes.toList ∧
    (cycleIdentity rngC9).length = 29 :=
  ⟨(rand_string_identity_shape 18 rngC9 '0').1,
   (rand_string_identity_shape 18 rngC9 '0').2.1 (by decide),
   (rand_string_identity_shape 18 rngC9 '0').2.2.2.1⟩

/-- Claim C10: `elapsed` is only updated after each 1-second sleep, so a
cycle whose presence condition already holds on the first poll observes
exactly 0 into the add validation-duration histogram; in general a
successful poll at time `t` returns the elapsed value set by the sleep
that preceded it (the loop's running clock `t`), not a value taken at
the moment of the successful poll. -/
theorem elapsed_update_semantics (env : CycleEnvA) (ok : Nat → Bool) (fuel t : Nat) :
    (0 < env.timeout → presenceOkA (env.lookupAdd 0) = true →
      (cycleA env).1.obsAdd = [0]) ∧
    (ok t = true → pollGo ok (fuel + 1) t t = (true, t)) := by
  constructor
  · intro hT h0
    have hp : pollLoop (fun u => presenceOkA (env.lookupAdd u)) env.timeout = (true, 0) :=
      pollLoop_zero (fun u => presenceOkA (env.lookupAdd u)) env.timeout hT h0
    simp [cycleA, hp]
  · intro h
    simp [pollGo, h]

/-- Witness for claim C10: the first-poll-success cycle `envC10` observes
exactly 0, and a poll succeeding at once returns the pre-set elapsed. -/
theorem elapsed_update_semantics_witness :
    (cycleA envC10).1.obsAdd = [0] ∧
    pollGo (fun _ => true) 1 0 0 = (true, 0) :=
  ⟨(elapsed_update_semantics envC10 (fun _ => true) 0 0).1 (by decide) (by decide),
   (elapsed_update_semantics envC10 (fun _ => true) 0 0).2 rfl⟩
